import Mathlib

/-!
Verification of the window-management core of the Codeverse compositor
(crate codeverse-window): the container tree arena, the split layout
engines, directional focus navigation, the workspace manager and the
floating-window manager.

The Rust sources are shallowly embedded:
  * machine integers: `i32` is modelled as `Int` and `u32` as `Nat`;
    the explicit Rust casts `as u32` / `as i32` are modelled by
    `u32_of_i32` / `i32_of_u32`, which reduce modulo 2^32 exactly as the
    bit-reinterpreting casts do;
  * the slotmap arena is modelled as an association list together with a
    fresh-key counter (`next_id`); stale lookups return `none`;
  * `&mut self` methods returning `Result` are modelled as functions
    returning the updated state paired with `Except String α`, so that
    mutations performed before an early `return Err` are preserved,
    exactly as in the source;
  * recursion over parent/child links (which the source performs on an
    arbitrary id graph) is given an explicit fuel argument; every
    theorem either fixes the fuel or holds for the fuel the caller in
    the source would use.
-/

namespace Codeverse

/-- Rust cast `x as u32` for `x : i32`: reduce modulo 2^32. -/
def u32_of_i32 (x : Int) : Nat := (x % (4294967296 : Int)).toNat

/-- Rust cast `n as i32` for `n : u32`: reinterpret the bit pattern. -/
def i32_of_u32 (n : Nat) : Int :=
  if n < 2147483648 then (n : Int) else (n : Int) - 4294967296

/-- NodeId of the slotmap arena, modelled as a natural number. -/
abbrev NodeId := Nat

/-- Field `container_type` of `Container` (tree/container.rs). -/
inductive ContainerType where
  | Root
  | Output
  | Workspace
  | Split
  | Stacked
  | Tabbed
  | Window
  | Floating
deriving DecidableEq, Repr

/-- Orientation for split containers (tree/container.rs). -/
inductive Orientation where
  | Horizontal
  | Vertical
deriving DecidableEq, Repr

/-- Layout mode for containers (tree/container.rs). -/
inductive LayoutMode where
  | SplitH
  | SplitV
  | Stacking
  | Tabbed
deriving DecidableEq, Repr

/-- Source `LayoutMode::orientation` (tree/container.rs). -/
def LayoutMode.orientation : LayoutMode → Option Orientation
  | .SplitH => some .Horizontal
  | .SplitV => some .Vertical
  | _ => none

/-- Source `Rectangle` (tree/container.rs): integer `x`, `y` are `i32`,
`width`, `height` are `u32`. -/
structure Rectangle where
  x : Int
  y : Int
  width : Nat
  height : Nat
deriving DecidableEq, Repr

/-- Source `Rectangle::new`. -/
def Rectangle.new (x y : Int) (width height : Nat) : Rectangle :=
  ⟨x, y, width, height⟩

/-- Source `Rectangle::contains_point`; note the `width as i32` and
`height as i32` casts. -/
def Rectangle.contains_point (r : Rectangle) (x y : Int) : Bool :=
  decide (x ≥ r.x) && decide (x < r.x + i32_of_u32 r.width) &&
  decide (y ≥ r.y) && decide (y < r.y + i32_of_u32 r.height)

/-- RGB color from the codeverse-config crate; only carried around, never
computed with, in the window core. -/
structure NordColor where
  r : Nat
  g : Nat
  b : Nat
deriving DecidableEq, Repr

/-- Source `NordColor::rgb`. -/
def NordColor.rgb (r g b : Nat) : NordColor := ⟨r, g, b⟩

/-- Source `Container` (tree/container.rs). The Wayland `WindowHandle`
payload is opaque to this core and is modelled by a `Nat` tag. -/
structure Container where
  id : NodeId
  container_type : ContainerType
  parent : Option NodeId
  children : List NodeId
  geometry : Rectangle
  layout : LayoutMode
  focused : Bool
  border_width : Nat
  border_color : NordColor
  window : Option Nat
  title : Option String
  app_id : Option String
  is_floating : Bool
  floating_original_geometry : Option Rectangle
  last_configured_size : Option (Nat × Nat)
deriving DecidableEq, Repr

/-- Source `Container::new`. -/
def Container.new (id : NodeId) (container_type : ContainerType) : Container where
  id := id
  container_type := container_type
  parent := none
  children := []
  geometry := Rectangle.new 0 0 0 0
  layout := .SplitH
  focused := false
  border_width := 2
  border_color := NordColor.rgb 0x4c 0x56 0x6a
  window := none
  title := none
  app_id := none
  is_floating := false
  floating_original_geometry := none
  last_configured_size := none

/-- Source `Container::can_have_children`. -/
def Container.can_have_children (c : Container) : Bool :=
  !(c.container_type = ContainerType.Window ∨
    c.container_type = ContainerType.Floating : Bool)

/-- Source `Container::is_leaf`. -/
def Container.is_leaf (c : Container) : Bool := c.children.isEmpty

/-- Lookup in the arena association list: the slotmap `get`. -/
def arenaLookup : List (NodeId × Container) → NodeId → Option Container
  | [], _ => none
  | (k, c) :: rest, i => if k = i then some c else arenaLookup rest i

/-- Pointwise update of one arena slot, the slotmap `get_mut` followed by a
write; a missing key leaves the arena unchanged. -/
def arenaModify (ns : List (NodeId × Container)) (i : NodeId)
    (f : Container → Container) : List (NodeId × Container) :=
  ns.map (fun p => if p.1 = i then (p.1, f p.2) else p)

/-- Source `WindowTree` (tree/container.rs): the slotmap plus the root and
focused ids.  `next_id` is the fresh-key counter of the slotmap model. -/
structure WindowTree where
  nodes : List (NodeId × Container)
  next_id : NodeId
  root : Option NodeId
  focused : Option NodeId
deriving DecidableEq, Repr

/-- Source `WindowTree::new`. -/
def WindowTree.new : WindowTree := ⟨[], 0, none, none⟩

/-- Source `WindowTree::get`. -/
def WindowTree.get (t : WindowTree) (i : NodeId) : Option Container :=
  arenaLookup t.nodes i

/-- Source `WindowTree::insert`: allocate a fresh id for the container. -/
def WindowTree.insert (t : WindowTree) (c : Container) : WindowTree × NodeId :=
  ({ t with nodes := t.nodes ++ [(t.next_id, c)], next_id := t.next_id + 1 },
   t.next_id)

/-- Pattern `if let Some(x) = self.get_mut(id) { mutate }`: update the slot
in place, or do nothing when the id is stale. -/
def WindowTree.modifyNode (t : WindowTree) (i : NodeId)
    (f : Container → Container) : WindowTree :=
  { t with nodes := arenaModify t.nodes i f }

/-- Source `WindowTree::remove`. -/
def WindowTree.remove (t : WindowTree) (i : NodeId) : WindowTree :=
  { t with nodes := t.nodes.filter (fun p => !(p.1 = i : Bool)) }

/-- Source `WindowTree::set_root`. -/
def WindowTree.set_root (t : WindowTree) (i : NodeId) : WindowTree :=
  { t with root := some i }

/-- Source `WindowTree::set_focused`: unfocus the previous node, record the
new id, focus the new node. -/
def WindowTree.set_focused (t : WindowTree) (i : Option NodeId) : WindowTree :=
  let t1 :=
    match t.focused with
    | some old => t.modifyNode old (fun c => { c with focused := false })
    | none => t
  let t2 := { t1 with focused := i }
  match i with
  | some nw => t2.modifyNode nw (fun c => { c with focused := true })
  | none => t2

/-- Source `WindowTree::add_child`; errors are reported without mutating,
and a stale `child_id` is silently skipped by the `if let` write of its
parent link while still being appended to the parent's child list. -/
def WindowTree.add_child (t : WindowTree) (parent_id child_id : NodeId) :
    WindowTree × Except String Unit :=
  match t.get parent_id with
  | none => (t, .error "Parent container not found")
  | some parent =>
    if !parent.can_have_children then
      -- the source formats the parent's type into this message
      (t, .error "Container cannot have children")
    else
      let t := t.modifyNode child_id (fun c => { c with parent := some parent_id })
      let t := t.modifyNode parent_id
        (fun p => { p with children := p.children ++ [child_id] })
      (t, .ok ())

/-- Source `WindowTree::remove_child`: drop the id from the parent's list
and clear the child's parent link; both writes are `if let` guarded. -/
def WindowTree.remove_child (t : WindowTree) (parent_id child_id : NodeId) :
    WindowTree :=
  let t := t.modifyNode parent_id
    (fun p => { p with children := p.children.filter (fun i => !(i = child_id : Bool)) })
  t.modifyNode child_id (fun c => { c with parent := none })

/-- Source `WindowTree::children`. -/
def WindowTree.children (t : WindowTree) (i : NodeId) : List NodeId :=
  ((t.get i).map (fun c => c.children)).getD []

/-- Source `WindowTree::parent`. -/
def WindowTree.parent (t : WindowTree) (i : NodeId) : Option NodeId :=
  (t.get i).bind (fun c => c.parent)

/-- Direction for navigation (tree/tree.rs). -/
inductive Direction where
  | Left
  | Right
  | Up
  | Down
deriving DecidableEq, Repr

/-- Source `Direction::orientation`. -/
def Direction.orientation : Direction → Orientation
  | .Left | .Right => .Horizontal
  | .Up | .Down => .Vertical

/-- Source `Direction::is_negative`. -/
def Direction.is_negative : Direction → Bool
  | .Left | .Up => true
  | _ => false

/-- Source `WindowTreeExt::first_focusable_descendant` (tree/tree.rs); the
fuel bounds the descent depth, which the source bounds by tree acyclicity. -/
def WindowTree.first_focusable_descendant (t : WindowTree) :
    Nat → NodeId → Option NodeId
  | 0, _ => none
  | fuel + 1, node_id =>
    match t.get node_id with
    | none => none
    | some node =>
      if node.container_type = ContainerType.Window then some node_id
      else
        match node.children with
        | [] => none
        | first_child :: _ => t.first_focusable_descendant fuel first_child

/-- Source `WindowTree::navigate_focus_recursive` (tree/tree.rs).  The `?`
on `position` and on `checked_sub` abort the whole search with `None`;
only an orientation mismatch or an out-of-range forward index falls
through to the recursive call on the parent. -/
def WindowTree.navigate_focus_recursive (t : WindowTree) :
    Nat → NodeId → Direction → Option NodeId
  | 0, _, _ => none
  | fuel + 1, current, direction =>
    match t.parent current with
    | none => none
    | some parent_id =>
      match t.get parent_id with
      | none => none
      | some parent =>
        match parent.layout.orientation with
        | some parent_orientation =>
          if parent_orientation = direction.orientation then
            match parent.children.findIdx? (fun i => i = current) with
            | none => none
            | some current_index =>
              match (if direction.is_negative then
                      (if current_index = 0 then none else some (current_index - 1))
                     else some (current_index + 1)) with
              | none => none
              | some target_index =>
                if target_index < parent.children.length then
                  parent.children.get? target_index
                else t.navigate_focus_recursive fuel parent_id direction
          else t.navigate_focus_recursive fuel parent_id direction
        | none => t.navigate_focus_recursive fuel parent_id direction

/-- Source `WindowTreeExt::navigate_focus` (tree/tree.rs).  In the
orientation-mismatch case the source returns the bare result of
`navigate_focus_recursive` without touching the tree. -/
def WindowTree.navigate_focus (t : WindowTree) (direction : Direction) :
    WindowTree × Option NodeId :=
  match t.focused with
  | none => (t, none)
  | some current =>
    match t.parent current with
    | none => (t, none)
    | some parent_id =>
      match t.get parent_id with
      | none => (t, none)
      | some parent =>
        match parent.layout.orientation with
        | none => (t, none)
        | some parent_orientation =>
          if parent_orientation ≠ direction.orientation then
            (t, t.navigate_focus_recursive t.nodes.length current direction)
          else
            match parent.children.findIdx? (fun i => i = current) with
            | none => (t, none)
            | some current_index =>
              match (if direction.is_negative then
                      (if current_index = 0 then none else some (current_index - 1))
                     else
                      (if current_index + 1 ≥ parent.children.length then none
                       else some (current_index + 1))) with
              | none => (t, none)
              | some target_index =>
                match parent.children.get? target_index with
                | none => (t, none)
                | some target_id =>
                  let focus_target :=
                    (t.first_focusable_descendant t.nodes.length target_id).getD
                      target_id
                  (t.set_focused (some focus_target), some focus_target)

/-- Source `WindowTreeExt::insert_window` (tree/tree.rs).  The window node
is inserted into the arena before the attach target is validated; the
source's `children_count == 0` branch and its else branch both perform the
same `add_child` call (the `target_layout` binding is unused). -/
def WindowTree.insert_window (t : WindowTree) (window : Nat)
    (workspace_id : NodeId) : WindowTree × Except String NodeId :=
  let step := t.insert { Container.new 0 ContainerType.Window with
    window := some window }
  let t1 := step.1
  let window_id := step.2
  let insert_target :=
    match t1.focused with
    | some focused_id =>
      match t1.get focused_id with
      | some focused =>
        if focused.container_type = ContainerType.Window then
          focused.parent.getD workspace_id
        else focused_id
      | none => workspace_id
    | none => workspace_id
  match t1.add_child insert_target window_id with
  | (t2, .error e) => (t2, .error e)
  | (t2, .ok _) => (t2.set_focused (some window_id), .ok window_id)

/-- Source `WindowTreeExt::remove_window` (tree/tree.rs). -/
def WindowTree.remove_window (t : WindowTree) (window_id : NodeId) :
    WindowTree × Except String Unit :=
  match t.parent window_id with
  | none => (t, .error "Window has no parent")
  | some parent_id =>
    let t := t.remove_child parent_id window_id
    let t :=
      if t.focused = some window_id then
        match t.children parent_id with
        | [] => t.set_focused (some parent_id)
        | sibling :: _ => t.set_focused (some sibling)
      else t
    (t.remove window_id, .ok ())

/-- Source `WindowTreeExt::split_focused` (tree/tree.rs): the new split is
re-attached with `add_child`, which appends to the end of the parent's
child list. -/
def WindowTree.split_focused (t : WindowTree) (orientation : Orientation) :
    WindowTree × Except String NodeId :=
  match t.focused with
  | none => (t, .error "No focused container")
  | some focused_id =>
    match t.parent focused_id with
    | none => (t, .error "Cannot split root")
    | some parent_id =>
      let split := { Container.new 0 ContainerType.Split with
        layout := match orientation with
          | .Horizontal => LayoutMode.SplitH
          | .Vertical => LayoutMode.SplitV }
      let step := t.insert split
      let t := step.1
      let split_id := step.2
      let t := t.remove_child parent_id focused_id
      match t.add_child parent_id split_id with
      | (t, .error e) => (t, .error e)
      | (t, .ok _) =>
        match t.add_child split_id focused_id with
        | (t, .error e) => (t, .error e)
        | (t, .ok _) => (t, .ok split_id)

/-- Source `WindowTreeExt::change_layout` (tree/tree.rs). -/
def WindowTree.change_layout (t : WindowTree) (layout : LayoutMode) :
    WindowTree × Except String Unit :=
  match t.focused with
  | none => (t, .error "No focused container")
  | some focused_id =>
    match t.parent focused_id with
    | none => (t, .error "Focused container has no parent")
    | some parent_id =>
      match t.get parent_id with
      | none => (t, .error "Parent not found")
      | some parent =>
        if !parent.can_have_children then
          (t, .error "Parent cannot have children")
        else
          (t.modifyNode parent_id (fun p => { p with layout := layout }), .ok ())

/-- Loop body of the `LayoutMode::SplitH` arm of
`WindowTree::layout_container` (tree/tree.rs, gap hardcoded to 4): every
child, the last one included, receives `child_width`; `rec` is the
recursive relayout of the child subtree. -/
def WindowTree.layoutSplitHGo (rec : WindowTree → NodeId → Rectangle → WindowTree)
    (geometry : Rectangle) (child_width : Int) :
    WindowTree → Int → List NodeId → WindowTree
  | t, _, [] => t
  | t, x, child_id :: rest =>
    let child_geometry :=
      Rectangle.new x geometry.y (u32_of_i32 child_width) geometry.height
    let t := t.modifyNode child_id (fun c => { c with geometry := child_geometry })
    let t := rec t child_id child_geometry
    WindowTree.layoutSplitHGo rec geometry child_width t (x + child_width + 4) rest

/-- Loop body of the `LayoutMode::SplitV` arm of
`WindowTree::layout_container`. -/
def WindowTree.layoutSplitVGo (rec : WindowTree → NodeId → Rectangle → WindowTree)
    (geometry : Rectangle) (child_height : Int) :
    WindowTree → Int → List NodeId → WindowTree
  | t, _, [] => t
  | t, y, child_id :: rest =>
    let child_geometry :=
      Rectangle.new geometry.x y geometry.width (u32_of_i32 child_height)
    let t := t.modifyNode child_id (fun c => { c with geometry := child_geometry })
    let t := rec t child_id child_geometry
    WindowTree.layoutSplitVGo rec geometry child_height t (y + child_height + 4) rest

/-- Loop body of the `Stacking` and `Tabbed` arms of
`WindowTree::layout_container`: every child receives the same rectangle. -/
def WindowTree.layoutStackGo (rec : WindowTree → NodeId → Rectangle → WindowTree)
    (geometry : Rectangle) : WindowTree → List NodeId → WindowTree
  | t, [] => t
  | t, child_id :: rest =>
    let t := t.modifyNode child_id (fun c => { c with geometry := geometry })
    let t := rec t child_id geometry
    WindowTree.layoutStackGo rec geometry t rest

/-- Source `WindowTree::layout_container` (tree/tree.rs), the layout engine
actually driven by `calculate_layout`.  `border_width` is bound but unused
in the source; `gap_width` is the hardcoded 4.  Note the `SplitH`/`SplitV`
arms have no positive-space guard and no last-child remainder. -/
def WindowTree.layout_container : Nat → WindowTree → NodeId → Rectangle → WindowTree
  | 0, t, _, _ => t
  | fuel + 1, t, container_id, geometry =>
    match t.get container_id with
    | none => t
    | some container =>
      if container.children.isEmpty then t
      else
        let children := container.children
        let num_children : Int := children.length
        let rec_fn := WindowTree.layout_container fuel
        match container.layout with
        | .SplitH =>
          let child_width :=
            Int.tdiv (i32_of_u32 geometry.width - (num_children - 1) * 4) num_children
          WindowTree.layoutSplitHGo rec_fn geometry child_width t geometry.x children
        | .SplitV =>
          let child_height :=
            Int.tdiv (i32_of_u32 geometry.height - (num_children - 1) * 4) num_children
          WindowTree.layoutSplitVGo rec_fn geometry child_height t geometry.y children
        | .Stacking =>
          WindowTree.layoutStackGo rec_fn geometry t children
        | .Tabbed =>
          let content_geometry := Rectangle.new geometry.x (geometry.y + 30)
            geometry.width (geometry.height - 30)
          WindowTree.layoutStackGo rec_fn content_geometry t children

/-- Source `WindowTreeExt::calculate_layout` (tree/tree.rs); the fuel
`nodes.length + 1` covers any acyclic containment chain. -/
def WindowTree.calculate_layout (t : WindowTree) (workspace_id : NodeId)
    (screen_geometry : Rectangle) : WindowTree :=
  let t := t.modifyNode workspace_id (fun w => { w with geometry := screen_geometry })
  WindowTree.layout_container (t.nodes.length + 1) t workspace_id screen_geometry

/-- Source `SplitLayout` (layout/split.rs). -/
structure SplitLayout where
  gap_width : Int
  border_width : Nat
deriving DecidableEq, Repr

/-- Source `SplitLayout::new`. -/
def SplitLayout.new : SplitLayout := ⟨4, 2⟩

/-- Loop body of `SplitLayout::layout_horizontal` (layout/split.rs): the
last child receives the exact remainder up to the right edge of the
parent rectangle. -/
def splitLayoutHGo (gap_width : Int)
    (rec : WindowTree → NodeId → Rectangle → WindowTree)
    (geometry : Rectangle) (child_width : Int) :
    WindowTree → Int → List NodeId → WindowTree
  | t, _, [] => t
  | t, x, child_id :: rest =>
    let width : Int :=
      if rest.isEmpty then (geometry.x + i32_of_u32 geometry.width) - x
      else child_width
    let child_geometry :=
      Rectangle.new x geometry.y (u32_of_i32 width) geometry.height
    let t := t.modifyNode child_id (fun c => { c with geometry := child_geometry })
    let t := rec t child_id child_geometry
    splitLayoutHGo gap_width rec geometry child_width t (x + width + gap_width) rest

/-- Loop body of `SplitLayout::layout_vertical` (layout/split.rs). -/
def splitLayoutVGo (gap_width : Int)
    (rec : WindowTree → NodeId → Rectangle → WindowTree)
    (geometry : Rectangle) (child_height : Int) :
    WindowTree → Int → List NodeId → WindowTree
  | t, _, [] => t
  | t, y, child_id :: rest =>
    let height : Int :=
      if rest.isEmpty then (geometry.y + i32_of_u32 geometry.height) - y
      else child_height
    let child_geometry :=
      Rectangle.new geometry.x y geometry.width (u32_of_i32 height)
    let t := t.modifyNode child_id (fun c => { c with geometry := child_geometry })
    let t := rec t child_id child_geometry
    splitLayoutVGo gap_width rec geometry child_height t (y + height + gap_width) rest

/-- Source `SplitLayout::layout_horizontal` with the recursive relayout of
children abstracted as `rec`. -/
def SplitLayout.layout_horizontal_with (sl : SplitLayout)
    (rec : WindowTree → NodeId → Rectangle → WindowTree)
    (t : WindowTree) (parent_id : NodeId) (geometry : Rectangle) : WindowTree :=
  let children := t.children parent_id
  if children.isEmpty then t
  else
    let num_children : Int := children.length
    let total_gap := (num_children - 1) * sl.gap_width
    let available_width := i32_of_u32 geometry.width - total_gap
    if available_width ≤ 0 then t
    else
      let child_width := Int.tdiv available_width num_children
      splitLayoutHGo sl.gap_width rec geometry child_width t geometry.x children

/-- Source `SplitLayout::layout_vertical` with the recursion abstracted. -/
def SplitLayout.layout_vertical_with (sl : SplitLayout)
    (rec : WindowTree → NodeId → Rectangle → WindowTree)
    (t : WindowTree) (parent_id : NodeId) (geometry : Rectangle) : WindowTree :=
  let children := t.children parent_id
  if children.isEmpty then t
  else
    let num_children : Int := children.length
    let total_gap := (num_children - 1) * sl.gap_width
    let available_height := i32_of_u32 geometry.height - total_gap
    if available_height ≤ 0 then t
    else
      let child_height := Int.tdiv available_height num_children
      splitLayoutVGo sl.gap_width rec geometry child_height t geometry.y children

/-- Source private `SplitLayout::layout_container` (layout/split.rs):
dispatch on the child container's own orientation; `Stacking`/`Tabbed`
are left untouched there. -/
def SplitLayout.layout_container (sl : SplitLayout) :
    Nat → WindowTree → NodeId → Rectangle → WindowTree
  | 0, t, _, _ => t
  | fuel + 1, t, container_id, geometry =>
    match (t.get container_id).bind (fun c => c.layout.orientation) with
    | some .Horizontal =>
      sl.layout_horizontal_with (sl.layout_container fuel) t container_id geometry
    | some .Vertical =>
      sl.layout_vertical_with (sl.layout_container fuel) t container_id geometry
    | none => t

/-- Source `SplitLayout::layout_horizontal` (layout/split.rs), with fuel
for the recursive descent into sub-containers. -/
def SplitLayout.layout_horizontal (sl : SplitLayout) (fuel : Nat)
    (t : WindowTree) (parent_id : NodeId) (geometry : Rectangle) : WindowTree :=
  sl.layout_horizontal_with (sl.layout_container fuel) t parent_id geometry

/-- Source `ResizeEdge` (floating/manager.rs). -/
inductive ResizeEdge where
  | Top
  | Bottom
  | Left
  | Right
  | TopLeft
  | TopRight
  | BottomLeft
  | BottomRight
deriving DecidableEq, Repr

/-- Source `MouseOperation` (floating/manager.rs). -/
inductive MouseOperation where
  | Moving (window : NodeId) (start_x start_y : Int) (original_geometry : Rectangle)
  | Resizing (window : NodeId) (start_x start_y : Int)
      (original_geometry : Rectangle) (edge : ResizeEdge)
  | None
deriving DecidableEq, Repr

/-- Source `FloatingManager` (floating/manager.rs). -/
structure FloatingManager where
  stack : List NodeId
  operation : MouseOperation
  min_width : Nat
  min_height : Nat
  default_width : Nat
  default_height : Nat
  title_bar_height : Nat
deriving DecidableEq, Repr

/-- Source `FloatingManager::new`. -/
def FloatingManager.new : FloatingManager :=
  ⟨[], .None, 200, 100, 800, 600, 30⟩

/-- Source `FloatingManager::raise_window`. -/
def FloatingManager.raise_window (fm : FloatingManager) (window_id : NodeId) :
    FloatingManager :=
  { fm with stack :=
      fm.stack.filter (fun i => !(i = window_id : Bool)) ++ [window_id] }

/-- Source `FloatingManager::make_floating`: saves the geometry, flips the
flag, centers at the default size and pushes onto the z-order; note there
is no check of the node's `container_type`. -/
def FloatingManager.make_floating (fm : FloatingManager) (t : WindowTree)
    (window_id : NodeId) (screen_geometry : Rectangle) :
    (FloatingManager × WindowTree) × Except String Unit :=
  match t.get window_id with
  | none => ((fm, t), .error "Window not found")
  | some _ =>
    let x := screen_geometry.x +
      Int.tdiv (i32_of_u32 screen_geometry.width - i32_of_u32 fm.default_width) 2
    let y := screen_geometry.y +
      Int.tdiv (i32_of_u32 screen_geometry.height - i32_of_u32 fm.default_height) 2
    let t := t.modifyNode window_id (fun c =>
      { c with floating_original_geometry := some c.geometry,
               is_floating := true,
               geometry := Rectangle.new x y fm.default_width fm.default_height })
    let fm :=
      if fm.stack.contains window_id then fm
      else { fm with stack := fm.stack ++ [window_id] }
    ((fm, t), .ok ())

/-- Source `FloatingManager::make_tiled`: restore the saved geometry when
present, clear it, drop the id from the z-order. -/
def FloatingManager.make_tiled (fm : FloatingManager) (t : WindowTree)
    (window_id : NodeId) : (FloatingManager × WindowTree) × Except String Unit :=
  match t.get window_id with
  | none => ((fm, t), .error "Window not found")
  | some _ =>
    let t := t.modifyNode window_id (fun c =>
      { c with is_floating := false,
               geometry := c.floating_original_geometry.getD c.geometry,
               floating_original_geometry := none })
    let fm := { fm with stack := fm.stack.filter (fun i => !(i = window_id : Bool)) }
    ((fm, t), .ok ())

/-- Source `FloatingManager::toggle_floating`. -/
def FloatingManager.toggle_floating (fm : FloatingManager) (t : WindowTree)
    (window_id : NodeId) (screen_geometry : Rectangle) :
    (FloatingManager × WindowTree) × Except String Unit :=
  match t.get window_id with
  | none => ((fm, t), .error "Window not found")
  | some container =>
    if container.is_floating then fm.make_tiled t window_id
    else fm.make_floating t window_id screen_geometry

/-- Source `FloatingManager::start_move`. -/
def FloatingManager.start_move (fm : FloatingManager) (t : WindowTree)
    (window_id : NodeId) (cursor_x cursor_y : Int) :
    FloatingManager × Except String Unit :=
  match t.get window_id with
  | none => (fm, .error "Window not found")
  | some container =>
    if !container.is_floating then (fm, .error "Window is not floating")
    else
      let fm := { fm with operation :=
        MouseOperation.Moving window_id cursor_x cursor_y container.geometry }
      (fm.raise_window window_id, .ok ())

/-- Source `FloatingManager::start_resize`. -/
def FloatingManager.start_resize (fm : FloatingManager) (t : WindowTree)
    (window_id : NodeId) (cursor_x cursor_y : Int) (edge : ResizeEdge) :
    FloatingManager × Except String Unit :=
  match t.get window_id with
  | none => (fm, .error "Window not found")
  | some container =>
    if !container.is_floating then (fm, .error "Window is not floating")
    else
      let fm := { fm with operation :=
        MouseOperation.Resizing window_id cursor_x cursor_y container.geometry edge }
      (fm.raise_window window_id, .ok ())

/-- Source `FloatingManager::update_operation` (floating/manager.rs): one
arm per resize edge, every width/height clamped from below by the
configured minimum via i32 `max`, then cast back to u32. -/
def FloatingManager.update_operation (fm : FloatingManager) (t : WindowTree)
    (cursor_x cursor_y : Int) : WindowTree × Except String Unit :=
  match fm.operation with
  | .Moving window start_x start_y og =>
    let dx := cursor_x - start_x
    let dy := cursor_y - start_y
    (t.modifyNode window (fun c =>
      { c with geometry := { c.geometry with x := og.x + dx, y := og.y + dy } }),
     .ok ())
  | .Resizing window start_x start_y og edge =>
    let dx := cursor_x - start_x
    let dy := cursor_y - start_y
    let new_geometry :=
      match edge with
      | .Right =>
        { og with width :=
            u32_of_i32 (max (i32_of_u32 og.width + dx) (i32_of_u32 fm.min_width)) }
      | .Bottom =>
        { og with height :=
            u32_of_i32 (max (i32_of_u32 og.height + dy) (i32_of_u32 fm.min_height)) }
      | .Left =>
        let new_width :=
          u32_of_i32 (max (i32_of_u32 og.width - dx) (i32_of_u32 fm.min_width))
        { og with
            x := og.x + (i32_of_u32 og.width - i32_of_u32 new_width),
            width := new_width }
      | .Top =>
        let new_height :=
          u32_of_i32 (max (i32_of_u32 og.height - dy) (i32_of_u32 fm.min_height))
        { og with
            y := og.y + (i32_of_u32 og.height - i32_of_u32 new_height),
            height := new_height }
      | .TopLeft =>
        let new_width :=
          u32_of_i32 (max (i32_of_u32 og.width - dx) (i32_of_u32 fm.min_width))
        let new_height :=
          u32_of_i32 (max (i32_of_u32 og.height - dy) (i32_of_u32 fm.min_height))
        { og with
            x := og.x + (i32_of_u32 og.width - i32_of_u32 new_width),
            y := og.y + (i32_of_u32 og.height - i32_of_u32 new_height),
            width := new_width, height := new_height }
      | .TopRight =>
        let new_width :=
          u32_of_i32 (max (i32_of_u32 og.width + dx) (i32_of_u32 fm.min_width))
        let new_height :=
          u32_of_i32 (max (i32_of_u32 og.height - dy) (i32_of_u32 fm.min_height))
        { og with
            y := og.y + (i32_of_u32 og.height - i32_of_u32 new_height),
            width := new_width, height := new_height }
      | .BottomLeft =>
        let new_width :=
          u32_of_i32 (max (i32_of_u32 og.width - dx) (i32_of_u32 fm.min_width))
        let new_height :=
          u32_of_i32 (max (i32_of_u32 og.height + dy) (i32_of_u32 fm.min_height))
        { og with
            x := og.x + (i32_of_u32 og.width - i32_of_u32 new_width),
            width := new_width, height := new_height }
      | .BottomRight =>
        { og with
            width :=
              u32_of_i32 (max (i32_of_u32 og.width + dx) (i32_of_u32 fm.min_width)),
            height :=
              u32_of_i32 (max (i32_of_u32 og.height + dy) (i32_of_u32 fm.min_height)) }
    (t.modifyNode window (fun c => { c with geometry := new_geometry }), .ok ())
  | .None => (t, .ok ())

/-- Source `FloatingManager::finish_operation`. -/
def FloatingManager.finish_operation (fm : FloatingManager) : FloatingManager :=
  { fm with operation := .None }

/-- Source `FloatingManager::remove_window`. -/
def FloatingManager.fm_remove_window (fm : FloatingManager) (window_id : NodeId) :
    FloatingManager :=
  let fm := { fm with stack := fm.stack.filter (fun i => !(i = window_id : Bool)) }
  match fm.operation with
  | .Moving window _ _ _ =>
    if window = window_id then { fm with operation := .None } else fm
  | .Resizing window _ _ _ _ =>
    if window = window_id then { fm with operation := .None } else fm
  | .None => fm

/-- Source `FloatingManager::find_window_at`: scan the z-order from top
(end of the list) to bottom, returning the first floating node whose
geometry contains the point. -/
def FloatingManager.find_window_at (fm : FloatingManager) (t : WindowTree)
    (x y : Int) : Option NodeId :=
  fm.stack.reverse.find? (fun window_id =>
    match t.get window_id with
    | some container => container.is_floating && container.geometry.contains_point x y
    | none => false)

/-- Source `MAX_WORKSPACES` (workspace/manager.rs). -/
def MAX_WORKSPACES : Nat := 10

/-- Source `WorkspaceManager` (workspace/manager.rs); the fixed array of
ten optional workspace ids is modelled as a list of length
`MAX_WORKSPACES`. -/
structure WorkspaceManager where
  workspaces : List (Option NodeId)
  active_workspace : Nat
  output_id : NodeId
deriving DecidableEq, Repr

/-- Source `WorkspaceManager::move_window_to_workspace`: the window is
detached from its current parent before the attach to the target
workspace is attempted. -/
def WorkspaceManager.move_window_to_workspace (m : WorkspaceManager)
    (t : WindowTree) (window_id : NodeId) (target_workspace_num : Nat) :
    WindowTree × Except String Unit :=
  if target_workspace_num < 1 ∨ target_workspace_num > MAX_WORKSPACES then
    (t, .error "Invalid workspace number")
  else
    match (m.workspaces.get? (target_workspace_num - 1)).join with
    | none => (t, .error "Target workspace not found")
    | some target_workspace_id =>
      match t.parent window_id with
      | none => (t, .error "Window has no parent")
      | some current_parent =>
        let t := t.remove_child current_parent window_id
        t.add_child target_workspace_id window_id

/-! ### Derived closed forms and concrete states used by the theorems -/

/-- Rectangle assigned by the `SplitLayout::layout_horizontal` loop to the
j-th remaining child when the accumulator starts at `x` and `m` children
remain: the last one stretches to the right edge of the parent. -/
def splitHGoRect (geo : Rectangle) (gap child_width x : Int) (m j : Nat) :
    Rectangle :=
  let xj := x + (j : Int) * (child_width + gap)
  if j + 1 = m then
    Rectangle.new xj geo.y (u32_of_i32 (geo.x + i32_of_u32 geo.width - xj))
      geo.height
  else Rectangle.new xj geo.y (u32_of_i32 child_width) geo.height

/-- Rectangle assigned by `SplitLayout::layout_horizontal` to child `j` of
`n` over rectangle `geo` with gap `gap`. -/
def splitHChildRect (geo : Rectangle) (gap : Int) (n j : Nat) : Rectangle :=
  splitHGoRect geo gap
    (Int.tdiv (i32_of_u32 geo.width - ((n : Int) - 1) * gap) (n : Int))
    geo.x n j

/-- Window node with the given parent, for the concrete test states. -/
def exWindowNode (p : NodeId) : Container :=
  { Container.new 0 ContainerType.Window with parent := some p }

/-- Workspace 0 with three window children 1, 2, 3. -/
def exTreeH : WindowTree :=
  ⟨[(0, { Container.new 0 ContainerType.Workspace with children := [1, 2, 3] }),
    (1, exWindowNode 0), (2, exWindowNode 0), (3, exWindowNode 0)],
   4, some 0, some 1⟩

/-- Workspace 0 with two window children, used for the degenerate-space
layout pass. -/
def exTreeZero : WindowTree :=
  ⟨[(0, { Container.new 0 ContainerType.Workspace with children := [1, 2] }),
    (1, exWindowNode 0), (2, exWindowNode 0)],
   3, some 0, none⟩

/-- Workspace 0 with two window children where window 1 is focused. -/
def exTreeSplit : WindowTree :=
  ⟨[(0, { Container.new 0 ContainerType.Workspace with children := [1, 2] }),
    (1, { exWindowNode 0 with focused := true }), (2, exWindowNode 0)],
   3, some 0, some 1⟩

/-- Horizontal workspace 0 holding two vertical splits 1 and 3; window 2
(inside split 1) is focused, window 4 lives inside split 3. -/
def exTreeNav : WindowTree :=
  ⟨[(0, { Container.new 0 ContainerType.Workspace with children := [1, 3] }),
    (1, { Container.new 0 ContainerType.Split with
            parent := some 0, children := [2], layout := LayoutMode.SplitV }),
    (2, { exWindowNode 1 with focused := true }),
    (3, { Container.new 0 ContainerType.Split with
            parent := some 0, children := [4], layout := LayoutMode.SplitV }),
    (4, exWindowNode 3)],
   5, some 0, some 2⟩

/-- Arena holding a single childless Split container. -/
def exTreeSplitNode : WindowTree :=
  ⟨[(0, Container.new 0 ContainerType.Split)], 1, none, none⟩

/-- Arena holding a single tiled window with a known geometry. -/
def exTreeFloat : WindowTree :=
  ⟨[(0, { Container.new 0 ContainerType.Window with
            geometry := Rectangle.new 10 20 400 300 })],
   1, none, none⟩

/-- Two overlapping floating windows 5 (below) and 6 (above). -/
def exTreeStack : WindowTree :=
  ⟨[(5, { Container.new 0 ContainerType.Window with
            is_floating := true, geometry := Rectangle.new 0 0 100 100 }),
    (6, { Container.new 0 ContainerType.Window with
            is_floating := true, geometry := Rectangle.new 50 50 100 100 })],
   7, none, none⟩

/-- Floating manager whose z-order holds windows 5 below 6. -/
def exFmStack : FloatingManager :=
  { FloatingManager.new with stack := [5, 6] }

/-- Floating manager with an active TopLeft resize grab on window 0. -/
def exFmResize : FloatingManager :=
  { FloatingManager.new with operation :=
      (MouseOperation.Resizing 0 100 100 (Rectangle.new 10 20 400 300)
        ResizeEdge.TopLeft) }

/-! ### General lemmas about the embedding -/

theorem u32_of_i32_eq_of_range (x : Int) (h0 : 0 ≤ x) (h1 : x < 4294967296) :
    (u32_of_i32 x : Int) = x := by
  unfold u32_of_i32
  rw [Int.emod_eq_of_lt h0 h1]
  exact Int.toNat_of_nonneg h0

theorem i32_of_u32_eq_of_lt (n : Nat) (h : n < 2147483648) :
    i32_of_u32 n = (n : Int) := by
  unfold i32_of_u32
  simp [h]

@[simp] theorem arenaLookup_nil (i : NodeId) : arenaLookup [] i = none := rfl

@[simp] theorem arenaLookup_cons (k : NodeId) (c : Container)
    (rest : List (NodeId × Container)) (i : NodeId) :
    arenaLookup ((k, c) :: rest) i =
      if k = i then some c else arenaLookup rest i := rfl

@[simp] theorem arenaModify_nil (i : NodeId) (f : Container → Container) :
    arenaModify [] i f = [] := rfl

@[simp] theorem arenaModify_cons (k : NodeId) (c : Container)
    (rest : List (NodeId × Container)) (i : NodeId) (f : Container → Container) :
    arenaModify ((k, c) :: rest) i f =
      (if k = i then (k, f c) else (k, c)) :: arenaModify rest i f := by
  by_cases hk : k = i <;> simp [arenaModify, hk]

theorem arenaLookup_modify_self (ns : List (NodeId × Container)) (i : NodeId)
    (f : Container → Container) :
    arenaLookup (arenaModify ns i f) i = (arenaLookup ns i).map f := by
  induction ns with
  | nil => rfl
  | cons p rest ih =>
    obtain ⟨k, c⟩ := p
    by_cases hk : k = i
    · subst hk; simp
    · simp [hk, ih]

theorem arenaLookup_modify_ne (ns : List (NodeId × Container)) (i j : NodeId)
    (f : Container → Container) (h : j ≠ i) :
    arenaLookup (arenaModify ns i f) j = arenaLookup ns j := by
  induction ns with
  | nil => rfl
  | cons p rest ih =>
    obtain ⟨k, c⟩ := p
    rw [arenaModify_cons]
    by_cases hk : k = i
    · have hkj : ¬ (k = j) := fun hh => h (hh ▸ hk)
      rw [if_pos hk, arenaLookup_cons, arenaLookup_cons, if_neg hkj, if_neg hkj, ih]
    · rw [if_neg hk, arenaLookup_cons, arenaLookup_cons, ih]

theorem arenaLookup_append_ne (ns : List (NodeId × Container)) (k : NodeId)
    (c : Container) (i : NodeId) (h : i ≠ k) :
    arenaLookup (ns ++ [(k, c)]) i = arenaLookup ns i := by
  induction ns with
  | nil =>
    have : ¬ (k = i) := fun hh => h hh.symm
    simp [arenaLookup, this]
  | cons p rest ih =>
    obtain ⟨k2, c2⟩ := p
    by_cases hk : k2 = i <;> simp [arenaLookup, hk, ih]

theorem arenaLookup_append_self (ns : List (NodeId × Container)) (k : NodeId)
    (c : Container) (h : arenaLookup ns k = none) :
    arenaLookup (ns ++ [(k, c)]) k = some c := by
  induction ns with
  | nil => simp [arenaLookup]
  | cons p rest ih =>
    obtain ⟨k2, c2⟩ := p
    by_cases hk : k2 = k
    · simp [arenaLookup, hk] at h
    · simp [arenaLookup, hk] at h ⊢
      exact ih h

theorem WindowTree.get_modifyNode_self (t : WindowTree) (i : NodeId)
    (f : Container → Container) :
    (t.modifyNode i f).get i = (t.get i).map f :=
  arenaLookup_modify_self t.nodes i f

theorem WindowTree.get_modifyNode_ne (t : WindowTree) (i j : NodeId)
    (f : Container → Container) (h : j ≠ i) :
    (t.modifyNode i f).get j = t.get j :=
  arenaLookup_modify_ne t.nodes i j f h

/-! ### Claim theorems -/

/-- C10: `WindowTree::add_child` returns Ok exactly when the parent exists
in the arena and its kind can have children; the child's existence is
never checked, so for a stale child id the call still succeeds and appends
to the parent's children list an identifier that is absent from the arena,
observable via `children`. -/
theorem add_child_dangling_spec (t : WindowTree) (p c : NodeId) :
    (((t.add_child p c).2 = Except.ok ()) ↔
      ((t.get p).any Container.can_have_children = true)) ∧
    (t.get c = none →
      ∀ pc : Container, t.get p = some pc → pc.can_have_children = true →
        (t.add_child p c).1.children p = t.children p ++ [c] ∧
        (t.add_child p c).1.get c = none) := by
  constructor
  · cases hp : t.get p with
    | none => simp [WindowTree.add_child, hp]
    | some pc =>
      by_cases hcan : pc.can_have_children <;>
        simp [WindowTree.add_child, hp, hcan]
  · intro hc pc hp hcan
    have hpc : p ≠ c := by
      intro h
      rw [h, hc] at hp
      exact Option.noConfusion hp
    constructor
    · simp only [WindowTree.add_child, hp, hcan, Bool.not_true, if_neg,
        Bool.false_eq_true, not_false_eq_true, WindowTree.children]
      rw [WindowTree.get_modifyNode_self,
        WindowTree.get_modifyNode_ne _ _ _ _ hpc, hp]
      rfl
    · simp only [WindowTree.add_child, hp, hcan, Bool.not_true,
        Bool.false_eq_true, not_false_eq_true, if_neg]
      rw [WindowTree.get_modifyNode_ne _ _ _ _ (Ne.symm hpc),
        WindowTree.get_modifyNode_self, hc]
      rfl

/-- C10 witness: a workspace parent and the stale child id 42. -/
theorem add_child_dangling_spec_witness :
    ((WindowTree.new.insert (Container.new 0 ContainerType.Workspace)).1.get 42
      = none) ∧
    ((WindowTree.new.insert (Container.new 0 ContainerType.Workspace)).1.add_child
        0 42).1.children 0 = [42] := by
  refine ⟨rfl, ?_⟩
  have h := add_child_dangling_spec
    (WindowTree.new.insert (Container.new 0 ContainerType.Workspace)).1 0 42
  have h2 := (h.2 rfl (Container.new 0 ContainerType.Workspace) rfl rfl).1
  simpa using h2

/-- C2 (code-bug evaluation): `insert_window` called on an empty tree (no
focused node) with a stale workspace id returns an error, yet the returned
tree differs from the input: the freshly created window node was inserted
into the arena before the attach target was validated, so this failure
path performs a partial mutation. -/
theorem insert_window_partial_mutation :
    (WindowTree.new.insert_window 7 99).2 =
      Except.error "Parent container not found" ∧
    (WindowTree.new.insert_window 7 99).1 ≠ WindowTree.new ∧
    (WindowTree.new.insert_window 7 99).1.nodes.length = 1 := by
  refine ⟨rfl, by decide, by decide⟩

/-- C5 (code-bug evaluation): a SplitH pass of `WindowTree::layout_container`
over a zero-width rectangle with two children computes child width
(0 - 1 * 4) / 2 = -2, and the `as u32` cast wraps it to 4294967294 — far
above 2^31 — while the sibling `SplitLayout` engine skips the identical
pass through its `available_width <= 0` guard. -/
theorem layout_container_width_wrap :
    ((WindowTree.layout_container 2 exTreeZero 0 (Rectangle.new 0 0 0 500)).get
        1).map (fun c => c.geometry.width) = some 4294967294 ∧
    2147483648 < 4294967294 ∧
    SplitLayout.new.layout_horizontal 2 exTreeZero 0 (Rectangle.new 0 0 0 500)
      = exTreeZero := by
  refine ⟨by decide, by decide, by decide⟩

/-- C1 counterexample: the engine driven by `calculate_layout`,
`WindowTree::layout_container` (SplitH arm, hardcoded gap 4), gives the
last child the same floored width as the others: over a 1920-wide
rectangle with three children every child gets width 637 at x = 0, 641,
1282, so the widths plus 2 * 4 gaps sum to 1919 ≠ 1920 and the last child
does not receive the exact remainder 638. -/
theorem layout_container_splitH_counterexample :
    ((WindowTree.layout_container 2 exTreeH 0 (Rectangle.new 0 0 1920 1080)).get
        3).map (fun c => (c.geometry.x, c.geometry.width)) = some (1282, 637) ∧
    ((WindowTree.layout_container 2 exTreeH 0 (Rectangle.new 0 0 1920 1080)).get
        1).map (fun c => (c.geometry.x, c.geometry.width)) = some (0, 637) ∧
    ((WindowTree.layout_container 2 exTreeH 0 (Rectangle.new 0 0 1920 1080)).get
        2).map (fun c => (c.geometry.x, c.geometry.width)) = some (641, 637) ∧
    637 + 4 + 637 + 4 + 637 ≠ 1920 := by
  refine ⟨by decide, by decide, by decide, by decide⟩

/-- C3 counterexample: in a workspace with children [1, 2] and window 1
focused (former position 0), `split_focused` succeeds with the new split
id 3 but the parent's children become [2, 3]: the split is appended at the
end, not inserted at the focused node's former position, which would give
[3, 2]. -/
theorem split_focused_position_counterexample :
    (exTreeSplit.split_focused Orientation.Horizontal).2 = Except.ok 3 ∧
    (exTreeSplit.split_focused Orientation.Horizontal).1.children 0 = [2, 3] ∧
    ([2, 3] : List NodeId) ≠ [3, 2] := by
  refine ⟨rfl, by decide, by decide⟩

/-- C4 counterexample: window 2 is focused inside vertical split 1, whose
orientation does not match Right; the upward search finds sibling split 3
of the matching horizontal ancestor 0, whose first descendant leaf is
window 4.  The claim requires focus to move there; the code instead leaves
focus on window 2 and merely returns the raw container id 3. -/
theorem navigate_focus_counterexample :
    (exTreeNav.navigate_focus Direction.Right).1.focused = some 2 ∧
    (exTreeNav.navigate_focus Direction.Right).1 = exTreeNav ∧
    (exTreeNav.navigate_focus Direction.Right).2 = some 3 ∧
    exTreeNav.first_focusable_descendant exTreeNav.nodes.length 3 = some 4 := by
  refine ⟨by decide, by decide, by decide, by decide⟩

/-- C7 (amended): `toggle_floating` performs no kind check: applied to any
present non-floating node of any container kind it succeeds and sets
`is_floating := true` while preserving the node's kind, so the
`is_floating → Window-kind` invariant is kept only by caller discipline. -/
theorem toggle_floating_ignores_kind (fm : FloatingManager) (t : WindowTree)
    (i : NodeId) (screen : Rectangle) (c : Container)
    (hget : t.get i = some c) (hnf : c.is_floating = false) :
    ((fm.toggle_floating t i screen).2 = Except.ok ()) ∧
    ((fm.toggle_floating t i screen).1.2.get i).map
        (fun cc => (cc.is_floating, cc.container_type)) =
      some (true, c.container_type) := by
  unfold FloatingManager.toggle_floating FloatingManager.make_floating
  simp [hget, hnf, WindowTree.get_modifyNode_self]

/-- C7 witness: toggling the tiled window of `exTreeFloat`. -/
theorem toggle_floating_ignores_kind_witness :
    ((FloatingManager.new.toggle_floating exTreeFloat 0
        (Rectangle.new 0 0 1920 1080)).2 = Except.ok ()) ∧
    ((FloatingManager.new.toggle_floating exTreeFloat 0
        (Rectangle.new 0 0 1920 1080)).1.2.get 0).map
        (fun cc => (cc.is_floating, cc.container_type)) =
      some (true, ContainerType.Window) :=
  toggle_floating_ignores_kind FloatingManager.new exTreeFloat 0
    (Rectangle.new 0 0 1920 1080) _ rfl rfl

/-- C7 counterexample: toggling the childless Split container 0 makes it
floating even though its kind is not Window. -/
theorem toggle_floating_split_counterexample :
    ((FloatingManager.new.toggle_floating exTreeSplitNode 0
        (Rectangle.new 0 0 1920 1080)).1.2.get 0).map
        (fun c => (c.is_floating, c.container_type)) =
      some (true, ContainerType.Split) ∧
    ContainerType.Split ≠ ContainerType.Window := by
  refine ⟨by decide, by decide⟩

/-- C9: for floating windows w and v with v below w in the z-order,
`raise_window w` followed by `find_window_at` at a point contained in both
geometries returns w: the hit test scans the z-order top-to-bottom and
after the raise w is top-most. -/
theorem raise_then_hit_test (fm : FloatingManager) (t : WindowTree)
    (w v : NodeId) (x y : Int) (cw cv : Container)
    (hw : t.get w = some cw) (hwf : cw.is_floating = true)
    (hwp : cw.geometry.contains_point x y = true)
    (hv : t.get v = some cv) (hvf : cv.is_floating = true)
    (hvp : cv.geometry.contains_point x y = true)
    (hmemw : w ∈ fm.stack) (hmemv : v ∈ fm.stack)
    (hbelow : fm.stack.indexOf v < fm.stack.indexOf w) :
    (fm.raise_window w).find_window_at t x y = some w := by
  unfold FloatingManager.raise_window FloatingManager.find_window_at
  have hpred : (fun window_id =>
      match t.get window_id with
      | some container =>
          container.is_floating && container.geometry.contains_point x y
      | none => false) w = true := by
    simp only [hw]
    simp [hwf, hwp]
  simp only [List.reverse_append, List.reverse_cons, List.reverse_nil,
    List.nil_append, List.singleton_append]
  exact List.find?_cons_of_pos _ hpred

/-- C9 witness: windows 5 (below) and 6 (above) overlap at (60, 60);
raising 6 and hit-testing there yields 6. -/
theorem raise_then_hit_test_witness :
    (exFmStack.raise_window 6).find_window_at exTreeStack 60 60 = some 6 :=
  raise_then_hit_test exFmStack exTreeStack 6 5 60 60 _ _ rfl rfl (by decide)
    rfl rfl (by decide) (by decide) (by decide) (by decide)

/-- C6: toggling a tiled window to floating and back (with no intervening
geometry writes) restores its geometry bit-for-bit, clears the saved
restore field, and removes the id from the z-order list. -/
theorem toggle_floating_roundtrip (fm : FloatingManager) (t : WindowTree)
    (w : NodeId) (screen : Rectangle) (c : Container)
    (hget : t.get w = some c) (hnf : c.is_floating = false) :
    ((((fm.toggle_floating t w screen).1.1.toggle_floating
        (fm.toggle_floating t w screen).1.2 w screen).1.2.get w).map
      (fun cc => (cc.geometry, cc.floating_original_geometry)) =
        some (c.geometry, none)) ∧
    (w ∉ ((fm.toggle_floating t w screen).1.1.toggle_floating
        (fm.toggle_floating t w screen).1.2 w screen).1.1.stack) ∧
    (((fm.toggle_floating t w screen).1.1.toggle_floating
        (fm.toggle_floating t w screen).1.2 w screen).2 = Except.ok ()) := by
  unfold FloatingManager.toggle_floating FloatingManager.make_floating
    FloatingManager.make_tiled
  simp only [hget, hnf, Bool.false_eq_true, if_false,
    WindowTree.get_modifyNode_self, Option.map_some]
  simp [WindowTree.get_modifyNode_self, hget, List.mem_filter]

/-- C6 witness: the tiled window of `exTreeFloat` with geometry
(10, 20, 400, 300). -/
theorem toggle_floating_roundtrip_witness :
    ((((FloatingManager.new.toggle_floating exTreeFloat 0
        (Rectangle.new 0 0 1920 1080)).1.1.toggle_floating
        (FloatingManager.new.toggle_floating exTreeFloat 0
          (Rectangle.new 0 0 1920 1080)).1.2 0
        (Rectangle.new 0 0 1920 1080)).1.2.get 0).map
      (fun cc => (cc.geometry, cc.floating_original_geometry)) =
        some (Rectangle.new 10 20 400 300, none)) ∧
    (0 ∉ ((FloatingManager.new.toggle_floating exTreeFloat 0
        (Rectangle.new 0 0 1920 1080)).1.1.toggle_floating
        (FloatingManager.new.toggle_floating exTreeFloat 0
          (Rectangle.new 0 0 1920 1080)).1.2 0
        (Rectangle.new 0 0 1920 1080)).1.1.stack) :=
  let h := toggle_floating_roundtrip FloatingManager.new exTreeFloat 0
    (Rectangle.new 0 0 1920 1080)
    { Container.new 0 ContainerType.Window with
        geometry := Rectangle.new 10 20 400 300 } rfl rfl
  ⟨h.1, h.2.1⟩

/-- C8: with an active TopLeft resize grab and a cursor delta
(dx, dy) = (cx - sx, cy - sy) with dx, dy ≥ 0, `update_operation`
decreases width by dx and height by dy (each clamped from below by the
configured minimum size), moves x and y by exactly the applied
width/height change, and leaves the bottom-right corner (x + width,
y + height) invariant. -/
theorem update_operation_top_left_spec (fm : FloatingManager) (t : WindowTree)
    (w : NodeId) (sx sy : Int) (og : Rectangle) (cx cy : Int) (c : Container)
    (hop : fm.operation =
      MouseOperation.Resizing w sx sy og ResizeEdge.TopLeft)
    (hget : t.get w = some c)
    (hdx : sx ≤ cx) (hdy : sy ≤ cy)
    (hwb : og.width < 2147483648) (hhb : og.height < 2147483648)
    (hminwb : fm.min_width < 2147483648) (hminhb : fm.min_height < 2147483648) :
    ∃ cc : Container,
      (fm.update_operation t cx cy).1.get w = some cc ∧
      (cc.geometry.width : Int) =
        max ((og.width : Int) - (cx - sx)) (fm.min_width : Int) ∧
      (cc.geometry.height : Int) =
        max ((og.height : Int) - (cy - sy)) (fm.min_height : Int) ∧
      cc.geometry.x = og.x + ((og.width : Int) - (cc.geometry.width : Int)) ∧
      cc.geometry.y = og.y + ((og.height : Int) - (cc.geometry.height : Int)) ∧
      cc.geometry.x + (cc.geometry.width : Int) = og.x + (og.width : Int) ∧
      cc.geometry.y + (cc.geometry.height : Int) = og.y + (og.height : Int) := by
  have hW : i32_of_u32 og.width = (og.width : Int) := i32_of_u32_eq_of_lt _ hwb
  have hH : i32_of_u32 og.height = (og.height : Int) := i32_of_u32_eq_of_lt _ hhb
  have hMW : i32_of_u32 fm.min_width = (fm.min_width : Int) :=
    i32_of_u32_eq_of_lt _ hminwb
  have hMH : i32_of_u32 fm.min_height = (fm.min_height : Int) :=
    i32_of_u32_eq_of_lt _ hminhb
  set m := max ((og.width : Int) - (cx - sx)) (fm.min_width : Int) with hm
  set k := max ((og.height : Int) - (cy - sy)) (fm.min_height : Int) with hk
  have hm0 : 0 ≤ m := le_trans (Int.natCast_nonneg _) (le_max_right _ _)
  have hk0 : 0 ≤ k := le_trans (Int.natCast_nonneg _) (le_max_right _ _)
  have hm31 : m < 2147483648 := by
    rw [hm]
    apply max_lt
    · have : (og.width : Int) < 2147483648 := by exact_mod_cast hwb
      omega
    · exact_mod_cast hminwb
  have hk31 : k < 2147483648 := by
    rw [hk]
    apply max_lt
    · have : (og.height : Int) < 2147483648 := by exact_mod_cast hhb
      omega
    · exact_mod_cast hminhb
  have hmc : ((u32_of_i32 m : Nat) : Int) = m :=
    u32_of_i32_eq_of_range m hm0 (by omega)
  have hkc : ((u32_of_i32 k : Nat) : Int) = k :=
    u32_of_i32_eq_of_range k hk0 (by omega)
  have hmc2 : i32_of_u32 (u32_of_i32 m) = m := by
    rw [i32_of_u32_eq_of_lt _ (by exact_mod_cast hmc ▸ hm31), hmc]
  have hkc2 : i32_of_u32 (u32_of_i32 k) = k := by
    rw [i32_of_u32_eq_of_lt _ (by exact_mod_cast hkc ▸ hk31), hkc]
  have hres : (fm.update_operation t cx cy).1.get w =
      some { c with geometry :=
        { og with
            x := og.x + (i32_of_u32 og.width - i32_of_u32 (u32_of_i32
              (max (i32_of_u32 og.width - (cx - sx)) (i32_of_u32 fm.min_width)))),
            y := og.y + (i32_of_u32 og.height - i32_of_u32 (u32_of_i32
              (max (i32_of_u32 og.height - (cy - sy)) (i32_of_u32 fm.min_height)))),
            width := u32_of_i32
              (max (i32_of_u32 og.width - (cx - sx)) (i32_of_u32 fm.min_width)),
            height := u32_of_i32
              (max (i32_of_u32 og.height - (cy - sy)) (i32_of_u32 fm.min_height)) } } := by
    unfold FloatingManager.update_operation
    simp only [hop]
    rw [WindowTree.get_modifyNode_self, hget]
    rfl
  refine ⟨_, hres, ?_, ?_, ?_, ?_, ?_, ?_⟩
  · simp only [hW, hMW]
    exact hmc
  · simp only [hH, hMH]
    exact hkc
  · simp only [hW, hMW, hmc, hmc2]
  · simp only [hH, hMH, hkc, hkc2]
  · simp only [hW, hMW, hmc, hmc2]
    ring
  · simp only [hH, hMH, hkc, hkc2]
    ring

/-- C8 witness: TopLeft grab on window 0 at (100, 100) with original
geometry (10, 20, 400, 300), cursor moved to (150, 130): width 350,
height 270, bottom-right corner stays at (410, 320). -/
theorem update_operation_top_left_spec_witness :
    ∃ cc : Container,
      (exFmResize.update_operation exTreeFloat 150 130).1.get 0 = some cc ∧
      (cc.geometry.width : Int) = 350 ∧ (cc.geometry.height : Int) = 270 ∧
      cc.geometry.x + (cc.geometry.width : Int) = 410 ∧
      cc.geometry.y + (cc.geometry.height : Int) = 320 := by
  obtain ⟨cc, h1, h2, h3, _, _, h6, h7⟩ :=
    update_operation_top_left_spec exFmResize exTreeFloat 0 100 100
      (Rectangle.new 10 20 400 300) 150 130
      { Container.new 0 ContainerType.Window with
          geometry := Rectangle.new 10 20 400 300 }
      rfl rfl (by decide) (by decide) (by decide) (by decide) (by decide)
      (by decide)
  refine ⟨cc, h1, ?_, ?_, ?_, ?_⟩
  · rw [h2]; decide
  · rw [h3]; decide
  · rw [h6]; decide
  · rw [h7]; decide

theorem arenaLookup_prop_of_mem (ns : List (NodeId × Container))
    (P : NodeId → Prop) (h : ∀ p ∈ ns, P p.1) (k : NodeId) (c : Container)
    (hk : arenaLookup ns k = some c) : P k := by
  induction ns with
  | nil => exact absurd hk (by simp)
  | cons q rest ih =>
    obtain ⟨k2, c2⟩ := q
    by_cases hk2 : k2 = k
    · exact hk2 ▸ h (k2, c2) (List.mem_cons_self _ _)
    · rw [arenaLookup_cons, if_neg hk2] at hk
      exact ih (fun p hp => h p (List.mem_cons_of_mem _ hp)) hk

theorem arenaLookup_none_of_forall_lt (ns : List (NodeId × Container))
    (n : NodeId) (h : ∀ p ∈ ns, p.1 < n) (k : NodeId) (hk : n ≤ k) :
    arenaLookup ns k = none := by
  cases hc : arenaLookup ns k with
  | none => rfl
  | some c =>
    have h2 : k < n := arenaLookup_prop_of_mem ns (fun i => i < n) h k c hc
    exact absurd h2 (Nat.not_lt.mpr hk)

theorem WindowTree.get_insert_self (t : WindowTree) (c : Container)
    (hfresh : t.get t.next_id = none) :
    (t.insert c).1.get t.next_id = some c :=
  arenaLookup_append_self t.nodes t.next_id c hfresh

theorem WindowTree.get_insert_ne (t : WindowTree) (c : Container) (i : NodeId)
    (h : i ≠ t.next_id) : (t.insert c).1.get i = t.get i :=
  arenaLookup_append_ne t.nodes t.next_id c i h

theorem WindowTree.add_child_ok (t : WindowTree) (p c : NodeId)
    (pc : Container) (hp : t.get p = some pc)
    (hcan : pc.can_have_children = true) :
    t.add_child p c =
      ((t.modifyNode c (fun x => { x with parent := some p })).modifyNode p
         (fun x => { x with children := x.children ++ [c] }), Except.ok ()) := by
  unfold WindowTree.add_child
  simp [hp, hcan]

/-- C4 (amended): when the focused node's parent's layout orientation does
not match the requested direction's axis, `navigate_focus` returns the
raw sibling id found by the upward search `navigate_focus_recursive`
and leaves the tree — its focus included — unchanged; no first-leaf
resolution and no focus move happen on this path (and for Left/Up the
upward search aborts at the first matching-orientation ancestor whose
child is first in the list, rather than continuing upward). -/
theorem navigate_focus_mismatch_no_refocus (t : WindowTree) (d : Direction)
    (cur p : NodeId) (cc pc : Container) (po : Orientation)
    (hfoc : t.focused = some cur) (hc : t.get cur = some cc)
    (hcp : cc.parent = some p) (hp : t.get p = some pc)
    (hor : pc.layout.orientation = some po) (hmm : po ≠ d.orientation) :
    t.navigate_focus d =
      (t, t.navigate_focus_recursive t.nodes.length cur d) := by
  have hpar : t.parent cur = some p := by
    simp [WindowTree.parent, hc, hcp]
  unfold WindowTree.navigate_focus
  simp [hfoc, hpar, hp, hor, hmm]

/-- C4 witness: the mismatch configuration of `exTreeNav` going Right. -/
theorem navigate_focus_mismatch_no_refocus_witness :
    exTreeNav.navigate_focus Direction.Right =
      (exTreeNav,
       exTreeNav.navigate_focus_recursive exTreeNav.nodes.length 2
         Direction.Right) :=
  navigate_focus_mismatch_no_refocus exTreeNav Direction.Right 2 1 _ _
    Orientation.Vertical rfl rfl rfl rfl rfl (by decide)

/-- C3 (amended): for a tree whose focused node f has a live parent p that
can own children (and an arena whose keys are below the fresh-id counter),
`split_focused` creates a new Split container of the requested orientation
whose sole child is f and whose id is the fresh id, but it attaches the
split at the END of p's children list — f's former position is taken only
when f was the last child — and re-parents f to the split. -/
theorem split_focused_appends (t : WindowTree) (o : Orientation)
    (f p : NodeId) (fc pc : Container)
    (hfoc : t.focused = some f) (hf : t.get f = some fc)
    (hfp : fc.parent = some p) (hp : t.get p = some pc)
    (hcan : pc.can_have_children = true)
    (hkeys : ∀ q ∈ t.nodes, q.1 < t.next_id) (hpf : p ≠ f) :
    (t.split_focused o).2 = Except.ok t.next_id ∧
    ((t.split_focused o).1.get t.next_id).map
        (fun s => (s.container_type, s.layout, s.children)) =
      some (ContainerType.Split,
        (match o with
         | Orientation.Horizontal => LayoutMode.SplitH
         | Orientation.Vertical => LayoutMode.SplitV), [f]) ∧
    (t.split_focused o).1.children p =
      pc.children.filter (fun i => !(i = f : Bool)) ++ [t.next_id] ∧
    ((t.split_focused o).1.get f).map (fun c => c.parent) =
      some (some t.next_id) := by
  have hfn : f < t.next_id :=
    arenaLookup_prop_of_mem t.nodes (fun i => i < t.next_id) hkeys f fc hf
  have hpn : p < t.next_id :=
    arenaLookup_prop_of_mem t.nodes (fun i => i < t.next_id) hkeys p pc hp
  have hfresh : t.get t.next_id = none :=
    arenaLookup_none_of_forall_lt _ _ hkeys _ (Nat.le_refl _)
  have hpar : t.parent f = some p := by simp [WindowTree.parent, hf, hfp]
  have hpnid : p ≠ t.next_id := Nat.ne_of_lt hpn
  have hfnid : f ≠ t.next_id := Nat.ne_of_lt hfn
  have hpf2 : f ≠ p := fun h => hpf h.symm
  have hnidp : t.next_id ≠ p := fun h => hpnid h.symm
  have hnidf : t.next_id ≠ f := fun h => hfnid h.symm
  simp only [WindowTree.get] at hf hp hfresh
  have hcan2 : decide (pc.container_type = ContainerType.Window ∨
      pc.container_type = ContainerType.Floating) = false := by
    simpa [Container.can_have_children] using hcan
  have hsplitcan : decide (ContainerType.Split = ContainerType.Window ∨
      ContainerType.Split = ContainerType.Floating) = false := by decide
  cases o <;>
    (unfold WindowTree.split_focused WindowTree.remove_child WindowTree.add_child
     simp only [hfoc, hpar, WindowTree.insert, WindowTree.get,
       WindowTree.modifyNode, WindowTree.children, Container.can_have_children,
       Container.new, Rectangle.new, NordColor.rgb,
       arenaLookup_modify_self, arenaLookup_modify_ne, arenaLookup_append_ne,
       arenaLookup_append_self, hf, hp, hfresh, hpf, hpf2, hpnid, hfnid,
       hnidp, hnidf, hcan2, hsplitcan,
       Option.map_some', ne_eq, not_false_eq_true, Bool.not_not, Bool.not_true,
       Bool.not_false, Bool.false_eq_true, Bool.true_eq_false, decide_False,
       decide_True, or_self, if_true, if_false, List.filter_nil,
       List.nil_append, Option.getD_some, and_self, and_true, true_and])

/-- C3 witness: splitting the focused last-but-one window 1 of
`exTreeSplit` horizontally. -/
theorem split_focused_appends_witness :
    (exTreeSplit.split_focused Orientation.Horizontal).2 = Except.ok 3 ∧
    ((exTreeSplit.split_focused Orientation.Horizontal).1.get 3).map
        (fun s => (s.container_type, s.layout, s.children)) =
      some (ContainerType.Split, LayoutMode.SplitH, [1]) ∧
    (exTreeSplit.split_focused Orientation.Horizontal).1.children 0 =
      [2] ++ [3] ∧
    ((exTreeSplit.split_focused Orientation.Horizontal).1.get 1).map
        (fun c => c.parent) = some (some 3) := by
  have h := split_focused_appends exTreeSplit Orientation.Horizontal 1 0
    { exWindowNode 0 with focused := true }
    { Container.new 0 ContainerType.Workspace with children := [1, 2] }
    rfl rfl rfl rfl rfl (by decide) (by decide)
  exact ⟨h.1, h.2.1, h.2.2.1, h.2.2.2⟩

theorem WindowTree.children_modify_geometry (t : WindowTree) (i j : NodeId)
    (g : Rectangle) :
    (t.modifyNode i (fun c => { c with geometry := g })).children j =
      t.children j := by
  unfold WindowTree.children
  by_cases h : j = i
  · subst h
    rw [WindowTree.get_modifyNode_self]
    cases t.get j <;> rfl
  · rw [WindowTree.get_modifyNode_ne _ _ _ _ h]

theorem SplitLayout.layout_container_leaf (sl : SplitLayout) (fuel : Nat)
    (t : WindowTree) (cid : NodeId) (geo : Rectangle)
    (h : t.children cid = []) : sl.layout_container fuel t cid geo = t := by
  cases fuel with
  | zero => rfl
  | succ m =>
    show (match (t.get cid).bind (fun c => c.layout.orientation) with
      | some Orientation.Horizontal =>
          sl.layout_horizontal_with (sl.layout_container m) t cid geo
      | some Orientation.Vertical =>
          sl.layout_vertical_with (sl.layout_container m) t cid geo
      | none => t) = t
    cases hg : (t.get cid).bind (fun c => c.layout.orientation) with
    | none => rfl
    | some orn =>
      cases orn
      · show sl.layout_horizontal_with (sl.layout_container m) t cid geo = t
        unfold SplitLayout.layout_horizontal_with
        simp [h]
      · show sl.layout_vertical_with (sl.layout_container m) t cid geo = t
        unfold SplitLayout.layout_vertical_with
        simp [h]

theorem splitHGoRect_shift (geo : Rectangle) (gap cw x : Int) (m j : Nat) :
    splitHGoRect geo gap cw (x + (cw + gap)) m j =
      splitHGoRect geo gap cw x (m + 1) (j + 1) := by
  unfold splitHGoRect
  have hx : x + (cw + gap) + (j : Int) * (cw + gap) =
      x + ((j + 1 : Nat) : Int) * (cw + gap) := by
    push_cast
    ring
  have hcond : (j + 1 = m) ↔ (j + 1 + 1 = m + 1) :=
    Iff.intro (fun h => by rw [h]) (fun h => Nat.succ_injective h)
  rw [hx, if_congr hcond rfl rfl]

theorem splitLayoutHGo_spec (sl : SplitLayout) (fuel : Nat) (geo : Rectangle)
    (cw : Int) :
    ∀ (cs : List NodeId) (t : WindowTree) (x : Int),
      cs.Nodup →
      (∀ c ∈ cs, t.children c = []) →
      (∀ (j : Nat) (hj : j < cs.length),
        (splitLayoutHGo sl.gap_width (sl.layout_container fuel) geo cw t x
            cs).get (cs.get ⟨j, hj⟩) =
          (t.get (cs.get ⟨j, hj⟩)).map
            (fun c => { c with geometry :=
              (splitHGoRect geo sl.gap_width cw x cs.length j) })) ∧
      (∀ i : NodeId, i ∉ cs →
        (splitLayoutHGo sl.gap_width (sl.layout_container fuel) geo cw t x
            cs).get i = t.get i) := by
  intro cs
  induction cs with
  | nil =>
    intro t x _ _
    refine ⟨fun j hj => absurd hj (by simp), fun i _ => rfl⟩
  | cons c rest ih =>
    intro t x hnd hch
    have hcnotin : c ∉ rest := (List.nodup_cons.mp hnd).1
    have hndr : rest.Nodup := (List.nodup_cons.mp hnd).2
    have hchc : t.children c = [] := hch c (List.mem_cons_self _ _)
    cases rest with
    | nil =>
      -- single remaining child: it takes the remainder up to the right edge
      have hrun : splitLayoutHGo sl.gap_width (sl.layout_container fuel) geo cw
          t x [c] =
          sl.layout_container fuel
            (t.modifyNode c (fun cc => { cc with geometry :=
              (Rectangle.new x geo.y
                (u32_of_i32 ((geo.x + i32_of_u32 geo.width) - x)) geo.height) }))
            c (Rectangle.new x geo.y
                (u32_of_i32 ((geo.x + i32_of_u32 geo.width) - x)) geo.height) :=
        rfl
      have hleafrec : sl.layout_container fuel
          (t.modifyNode c (fun cc => { cc with geometry :=
            (Rectangle.new x geo.y
              (u32_of_i32 ((geo.x + i32_of_u32 geo.width) - x)) geo.height) }))
          c (Rectangle.new x geo.y
              (u32_of_i32 ((geo.x + i32_of_u32 geo.width) - x)) geo.height) =
          t.modifyNode c (fun cc => { cc with geometry :=
            (Rectangle.new x geo.y
              (u32_of_i32 ((geo.x + i32_of_u32 geo.width) - x)) geo.height) }) :=
        SplitLayout.layout_container_leaf _ _ _ _ _
          ((WindowTree.children_modify_geometry t c c _).trans hchc)
      constructor
      · intro j hj
        have hj0 : j = 0 := by
          simp at hj
          omega
        subst hj0
        have hc0 : ([c] : List NodeId).get ⟨0, hj⟩ = c := rfl
        rw [hrun, hleafrec, hc0, WindowTree.get_modifyNode_self]
        cases hg : t.get c with
        | none => rfl
        | some cc =>
          simp only [Option.map_some']
          unfold splitHGoRect
          norm_num
      · intro i hi
        have hic : i ≠ c := by
          intro h
          exact hi (h ▸ List.mem_cons_self _ _)
        rw [hrun, hleafrec, WindowTree.get_modifyNode_ne _ _ _ _ hic]
    | cons c2 rest2 =>
      -- head child takes the floored width, the tail shifts by cw + gap
      have hrun : splitLayoutHGo sl.gap_width (sl.layout_container fuel) geo cw
          t x (c :: c2 :: rest2) =
          splitLayoutHGo sl.gap_width (sl.layout_container fuel) geo cw
            (sl.layout_container fuel
              (t.modifyNode c (fun cc => { cc with geometry :=
                (Rectangle.new x geo.y (u32_of_i32 cw) geo.height) }))
              c (Rectangle.new x geo.y (u32_of_i32 cw) geo.height))
            (x + cw + sl.gap_width) (c2 :: rest2) := rfl
      have hleafrec : sl.layout_container fuel
          (t.modifyNode c (fun cc => { cc with geometry :=
            (Rectangle.new x geo.y (u32_of_i32 cw) geo.height) }))
          c (Rectangle.new x geo.y (u32_of_i32 cw) geo.height) =
          t.modifyNode c (fun cc => { cc with geometry :=
            (Rectangle.new x geo.y (u32_of_i32 cw) geo.height) }) :=
        SplitLayout.layout_container_leaf _ _ _ _ _
          ((WindowTree.children_modify_geometry t c c _).trans hchc)
      have hch2 : ∀ r ∈ (c2 :: rest2),
          (t.modifyNode c (fun cc => { cc with geometry :=
            (Rectangle.new x geo.y (u32_of_i32 cw) geo.height) })).children r
            = [] := by
        intro r hr
        rw [WindowTree.children_modify_geometry]
        exact hch r (List.mem_cons_of_mem _ hr)
      obtain ⟨ih1, ih2⟩ := ih
        (t.modifyNode c (fun cc => { cc with geometry :=
          (Rectangle.new x geo.y (u32_of_i32 cw) geo.height) }))
        (x + cw + sl.gap_width) hndr hch2
      constructor
      · intro j hj
        cases j with
        | zero =>
          have hc0 : (c :: c2 :: rest2).get ⟨0, hj⟩ = c := rfl
          rw [hrun, hleafrec, hc0, ih2 c hcnotin,
            WindowTree.get_modifyNode_self]
          cases hg : t.get c with
          | none => rfl
          | some cc =>
            simp only [Option.map_some']
            unfold splitHGoRect
            rw [if_neg (by simp : ¬ (0 + 1 = (c :: c2 :: rest2).length))]
            norm_num
        | succ j2 =>
          have hj2 : j2 < (c2 :: rest2).length := by
            simpa using hj
          have hget : (c :: c2 :: rest2).get ⟨j2 + 1, hj⟩ =
              (c2 :: rest2).get ⟨j2, hj2⟩ := rfl
          rw [hrun, hleafrec, hget, ih1 j2 hj2,
            WindowTree.get_modifyNode_ne _ _ _ _ ?hne]
          case hne =>
            intro h
            exact hcnotin (h ▸ List.get_mem _ _ _)
          have hx : x + cw + sl.gap_width = x + (cw + sl.gap_width) := by ring
          rw [hx, splitHGoRect_shift]
          rfl
      · intro i hi
        have hic : i ≠ c := fun h => hi (h ▸ List.mem_cons_self _ _)
        have hir : i ∉ (c2 :: rest2) := fun h => hi (List.mem_cons_of_mem _ h)
        rw [hrun, hleafrec, ih2 i hir,
          WindowTree.get_modifyNode_ne _ _ _ _ hic]

theorem splitHChildRect_x (geo : Rectangle) (gap : Int) (n j : Nat) :
    (splitHChildRect geo gap n j).x =
      geo.x + (j : Int) *
        (Int.tdiv (i32_of_u32 geo.width - ((n : Int) - 1) * gap) (n : Int)
          + gap) := by
  unfold splitHChildRect splitHGoRect
  by_cases h : j + 1 = n <;> simp [h, Rectangle.new]

theorem splitHChildRect_y (geo : Rectangle) (gap : Int) (n j : Nat) :
    (splitHChildRect geo gap n j).y = geo.y := by
  unfold splitHChildRect splitHGoRect
  by_cases h : j + 1 = n <;> simp [h, Rectangle.new]

theorem splitHChildRect_height (geo : Rectangle) (gap : Int) (n j : Nat) :
    (splitHChildRect geo gap n j).height = geo.height := by
  unfold splitHChildRect splitHGoRect
  by_cases h : j + 1 = n <;> simp [h, Rectangle.new]

theorem splitHChildRect_width_mid (geo : Rectangle) (gap : Int) (n j : Nat)
    (h : ¬ (j + 1 = n)) :
    (splitHChildRect geo gap n j).width =
      u32_of_i32
        (Int.tdiv (i32_of_u32 geo.width - ((n : Int) - 1) * gap) (n : Int)) := by
  unfold splitHChildRect splitHGoRect
  simp [h, Rectangle.new]

theorem splitHChildRect_width_last (geo : Rectangle) (gap : Int) (n j : Nat)
    (h : j + 1 = n) :
    (splitHChildRect geo gap n j).width =
      u32_of_i32 (i32_of_u32 geo.width - (j : Int) *
        (Int.tdiv (i32_of_u32 geo.width - ((n : Int) - 1) * gap) (n : Int)
          + gap)) := by
  unfold splitHChildRect splitHGoRect
  rw [if_pos h]
  simp only [Rectangle.new]
  congr 1
  ring

/-- C1 (amended, for `SplitLayout::layout_horizontal`): laying out N ≥ 1
distinct leaf children over rectangle R with gap g ≥ 0 and positive usable
width assigns child j the rectangle `splitHChildRect R g N j`; every child
except the last gets width `usable / N`, the widths plus (N-1)·g sum
exactly to R.width, consecutive children are separated by exactly the
previous width plus the gap (left-to-right in list order, pairwise
non-overlapping), and all children share R.y and R.height.  (The engine
driven by `calculate_layout`, `WindowTree::layout_container`, does NOT
satisfy this: see the counterexample.) -/
theorem layout_horizontal_spec (sl : SplitLayout) (fuel : Nat)
    (t : WindowTree) (parent_id : NodeId) (geo : Rectangle) (cs : List NodeId)
    (hch : t.children parent_id = cs) (hpos : 0 < cs.length)
    (hnd : cs.Nodup) (hleaf : ∀ c ∈ cs, t.children c = [])
    (hgap : 0 ≤ sl.gap_width) (hWlt : geo.width < 2147483648)
    (havail : 0 < i32_of_u32 geo.width - ((cs.length : Int) - 1) * sl.gap_width) :
    (∀ (j : Nat) (hj : j < cs.length),
      (sl.layout_horizontal fuel t parent_id geo).get (cs.get ⟨j, hj⟩) =
        (t.get (cs.get ⟨j, hj⟩)).map
          (fun c => { c with geometry :=
            (splitHChildRect geo sl.gap_width cs.length j) })) ∧
    (∀ j : Nat, j + 1 < cs.length →
      ((splitHChildRect geo sl.gap_width cs.length j).width : Int) =
        Int.tdiv (i32_of_u32 geo.width - ((cs.length : Int) - 1) * sl.gap_width)
          (cs.length : Int)) ∧
    ((Finset.range cs.length).sum
        (fun j => ((splitHChildRect geo sl.gap_width cs.length j).width : Int))
      + ((cs.length : Int) - 1) * sl.gap_width = (geo.width : Int)) ∧
    (∀ j : Nat, j + 1 < cs.length →
      (splitHChildRect geo sl.gap_width cs.length (j + 1)).x =
        (splitHChildRect geo sl.gap_width cs.length j).x +
          ((splitHChildRect geo sl.gap_width cs.length j).width : Int) +
          sl.gap_width) ∧
    (∀ i j : Nat, i < j → j < cs.length →
      (splitHChildRect geo sl.gap_width cs.length i).x +
          ((splitHChildRect geo sl.gap_width cs.length i).width : Int) ≤
        (splitHChildRect geo sl.gap_width cs.length j).x) ∧
    (∀ j : Nat, j < cs.length →
      (splitHChildRect geo sl.gap_width cs.length j).y = geo.y ∧
      (splitHChildRect geo sl.gap_width cs.length j).height = geo.height) := by
  have hW : i32_of_u32 geo.width = (geo.width : Int) :=
    i32_of_u32_eq_of_lt _ hWlt
  have hW31 : (geo.width : Int) < 2147483648 := by exact_mod_cast hWlt
  have hn1 : (1 : Int) ≤ (cs.length : Int) := by exact_mod_cast hpos
  have hnpos : (0 : Int) < (cs.length : Int) := by linarith
  have hA0 : (0 : Int) <
      i32_of_u32 geo.width - ((cs.length : Int) - 1) * sl.gap_width := havail
  have hAW : i32_of_u32 geo.width - ((cs.length : Int) - 1) * sl.gap_width ≤
      (geo.width : Int) := by
    rw [hW]
    have : 0 ≤ ((cs.length : Int) - 1) * sl.gap_width := by
      apply mul_nonneg <;> linarith
    linarith
  have hcw0 : 0 ≤ Int.tdiv
      (i32_of_u32 geo.width - ((cs.length : Int) - 1) * sl.gap_width)
      (cs.length : Int) :=
    Int.tdiv_nonneg (le_of_lt hA0) (le_of_lt hnpos)
  have hed : Int.tdiv
      (i32_of_u32 geo.width - ((cs.length : Int) - 1) * sl.gap_width)
      (cs.length : Int) =
      (i32_of_u32 geo.width - ((cs.length : Int) - 1) * sl.gap_width) /
        (cs.length : Int) :=
    Int.tdiv_eq_ediv (le_of_lt hA0) (le_of_lt hnpos)
  have hmul : (cs.length : Int) * Int.tdiv
      (i32_of_u32 geo.width - ((cs.length : Int) - 1) * sl.gap_width)
      (cs.length : Int) ≤
      i32_of_u32 geo.width - ((cs.length : Int) - 1) * sl.gap_width := by
    rw [hed]
    have h2 := Int.ediv_mul_le
      (i32_of_u32 geo.width - ((cs.length : Int) - 1) * sl.gap_width)
      (show (cs.length : Int) ≠ 0 by linarith)
    linarith [h2]
  have hcwA : Int.tdiv
      (i32_of_u32 geo.width - ((cs.length : Int) - 1) * sl.gap_width)
      (cs.length : Int) ≤
      i32_of_u32 geo.width - ((cs.length : Int) - 1) * sl.gap_width := by
    nlinarith [hmul, hcw0, hn1]
  have hcw32 : Int.tdiv
      (i32_of_u32 geo.width - ((cs.length : Int) - 1) * sl.gap_width)
      (cs.length : Int) < 4294967296 := by
    rw [hW] at hcwA hA0 ⊢
    linarith
  have hcwcast : ((u32_of_i32 (Int.tdiv
      (i32_of_u32 geo.width - ((cs.length : Int) - 1) * sl.gap_width)
      (cs.length : Int)) : Nat) : Int) =
      Int.tdiv (i32_of_u32 geo.width - ((cs.length : Int) - 1) * sl.gap_width)
        (cs.length : Int) :=
    u32_of_i32_eq_of_range _ hcw0 hcw32
  refine ⟨?_, ?_, ?_, ?_, ?_, ?_⟩
  · -- per-child geometry: unfold the engine and use the loop lemma
    intro j hj
    unfold SplitLayout.layout_horizontal SplitLayout.layout_horizontal_with
    have hne : cs.isEmpty = false := by
      cases cs with
      | nil => simp at hpos
      | cons a l => rfl
    rw [hch]
    simp only [hne, Bool.false_eq_true, if_false]
    rw [if_neg (not_le.mpr hA0)]
    exact (splitLayoutHGo_spec sl fuel geo _ cs t geo.x hnd hleaf).1 j hj
  · intro j hj
    rw [splitHChildRect_width_mid geo sl.gap_width cs.length j (by omega)]
    exact hcwcast
  · -- widths plus gaps sum exactly to the parent width
    obtain ⟨m, hm⟩ : ∃ m, cs.length = m + 1 :=
      ⟨cs.length - 1, (Nat.succ_pred_eq_of_pos hpos).symm⟩
    rw [hm, Finset.sum_range_succ]
    rw [hm] at hcwcast hmul hcw0
    have hmc : ((m + 1 : Nat) : Int) - 1 = (m : Int) := by
      push_cast
      ring
    have hmid : ∀ j ∈ Finset.range m,
        ((splitHChildRect geo sl.gap_width (m + 1) j).width : Int) =
          Int.tdiv (i32_of_u32 geo.width
              - (((m + 1 : Nat) : Int) - 1) * sl.gap_width)
            ((m + 1 : Nat) : Int) := by
      intro j hjm
      rw [Finset.mem_range] at hjm
      rw [splitHChildRect_width_mid geo sl.gap_width (m + 1) j (by omega)]
      exact hcwcast
    rw [Finset.sum_congr rfl hmid, Finset.sum_const, Finset.card_range,
      nsmul_eq_mul]
    have hexp : ((m + 1 : Nat) : Int) * Int.tdiv (i32_of_u32 geo.width
        - (((m + 1 : Nat) : Int) - 1) * sl.gap_width) ((m + 1 : Nat) : Int) =
        (m : Int) * Int.tdiv (i32_of_u32 geo.width
          - (((m + 1 : Nat) : Int) - 1) * sl.gap_width) ((m + 1 : Nat) : Int) +
        Int.tdiv (i32_of_u32 geo.width
          - (((m + 1 : Nat) : Int) - 1) * sl.gap_width) ((m + 1 : Nat) : Int) := by
      push_cast
      ring
    have hlast : ((splitHChildRect geo sl.gap_width (m + 1) m).width : Int) =
        i32_of_u32 geo.width - (m : Int) *
          (Int.tdiv (i32_of_u32 geo.width
              - (((m + 1 : Nat) : Int) - 1) * sl.gap_width) ((m + 1 : Nat) : Int)
            + sl.gap_width) := by
      rw [splitHChildRect_width_last geo sl.gap_width (m + 1) m rfl]
      apply u32_of_i32_eq_of_range
      · rw [hexp] at hmul
        rw [hmc] at hmul ⊢
        have hm0 : (0 : Int) ≤ (m : Int) := by positivity
        nlinarith [hmul, hcw0, hgap, hm0]
      · rw [hmc] at hcw0 ⊢
        rw [hW] at hcw0 ⊢
        have hm0 : (0 : Int) ≤ (m : Int) := by positivity
        have hprod : 0 ≤ (m : Int) * (Int.tdiv ((geo.width : Int)
            - (m : Int) * sl.gap_width) ((m + 1 : Nat) : Int) + sl.gap_width) := by
          apply mul_nonneg hm0
          linarith
        linarith
    rw [hlast, hW]
    push_cast
    ring
  · intro j hj
    rw [splitHChildRect_x, splitHChildRect_x,
      splitHChildRect_width_mid geo sl.gap_width cs.length j (by omega),
      hcwcast]
    push_cast
    ring
  · intro i j hij hj
    rw [splitHChildRect_x, splitHChildRect_x,
      splitHChildRect_width_mid geo sl.gap_width cs.length i (by omega),
      hcwcast]
    have hij2 : ((i : Int) + 1) ≤ (j : Int) := by exact_mod_cast hij
    have hstep : ((i : Int) + 1) * (Int.tdiv
        (i32_of_u32 geo.width - ((cs.length : Int) - 1) * sl.gap_width)
        (cs.length : Int) + sl.gap_width) ≤
        (j : Int) * (Int.tdiv
        (i32_of_u32 geo.width - ((cs.length : Int) - 1) * sl.gap_width)
        (cs.length : Int) + sl.gap_width) := by
      apply mul_le_mul_of_nonneg_right hij2
      linarith
    nlinarith [hstep, hgap, hcw0]
  · intro j hj
    exact ⟨splitHChildRect_y geo sl.gap_width cs.length j,
      splitHChildRect_height geo sl.gap_width cs.length j⟩

/-- C1 witness: three windows over a 1920-wide rectangle with gap 4;
the last child's stored geometry is the remainder rectangle and the
widths plus two gaps sum to exactly 1920. -/
theorem layout_horizontal_spec_witness :
    ((SplitLayout.new.layout_horizontal 1 exTreeH 0
        (Rectangle.new 0 0 1920 1080)).get 3 =
      (exTreeH.get 3).map (fun c => { c with geometry :=
        (splitHChildRect (Rectangle.new 0 0 1920 1080)
          SplitLayout.new.gap_width 3 2) })) ∧
    ((Finset.range 3).sum
        (fun j => ((splitHChildRect (Rectangle.new 0 0 1920 1080)
          SplitLayout.new.gap_width 3 j).width : Int)) +
      ((3 : Int) - 1) * SplitLayout.new.gap_width = 1920) := by
  have h := layout_horizontal_spec SplitLayout.new 1 exTreeH 0
    (Rectangle.new 0 0 1920 1080) [1, 2, 3] rfl (by decide) (by decide)
    (by decide) (by decide) (by decide) (by decide)
  exact ⟨h.1 2 (by decide), h.2.2.1⟩

end Codeverse
